import Mathlib

/-
Shallow embedding of the quiz-session server (src/index.js): the session
registry (GameManager) and the per-session event handlers (start_game,
next_question, show_results, join_game, submit_answer, disconnect),
together with sendQuestion and getLeaderboard.

Conventions of the embedding:
- Connection identifiers and pins are strings, as in the source.
- JS objects used as dictionaries (the games Map, the answers object and
  its inner per-question objects) are association lists with first-match
  lookup; assignment overwrites the first matching key or appends.
- currentQuestionIndex is an Int, since it starts at -1.
- An out-of-bounds question access (reading an undefined array element and
  then dereferencing a field on it, which throws in JS) is modelled by the
  ok flag of a handler result being false; state mutations performed
  before the throwing access are kept, mutations after it are not.
- Math.floor over the exact rational value is Int.fdiv, exact for the
  integer inputs considered here.
- Array.prototype.sort with comparator (a, b) => b.score - a.score is a
  stable sort placing a before b when b.score - a.score is nonpositive,
  i.e. a stable sort by the relation b.score ≤ a.score; it sorts the
  array IN PLACE and returns the same array.
-/

namespace Kahoot

abbrev ConnId := String

/-- A player record as pushed by join_game: { id, nickname, score, streak }. -/
structure Player where
  id : ConnId
  nickname : String
  score : Int
  streak : Nat
deriving Repr, DecidableEq

/-- A question as consumed by the handlers: text, options, correctIndex,
and an optional timeLimit (absent models a missing field). -/
structure Question where
  text : String
  options : List String
  correctIndex : Int
  timeLimit : Option Nat
deriving Repr, DecidableEq

/-- The state field of a game: LOBBY, QUESTION, RESULT, LEADERBOARD, END. -/
inductive GState where
  | LOBBY
  | QUESTION
  | RESULT
  | LEADERBOARD
  | END
deriving Repr, DecidableEq

/-- Association-list lookup: first entry with the given key, as a JS object
or Map lookup. -/
def lookupA {β : Type} (m : List (Int × β)) (k : Int) : Option β :=
  (m.find? (fun e => e.1 = k)).map Prod.snd

/-- Association-list assignment: overwrite the first entry with the given
key, or append a new entry, as a JS object or Map assignment. -/
def setA {β : Type} : List (Int × β) → Int → β → List (Int × β)
  | [], k, v => [(k, v)]
  | (a, b) :: t, k, v => if a = k then (k, v) :: t else (a, b) :: setA t k v

/-- String-keyed association-list lookup (for the games Map keyed by pin
and the per-question answers objects keyed by socket id). -/
def lookupS {β : Type} (m : List (String × β)) (k : String) : Option β :=
  (m.find? (fun e => e.1 = k)).map Prod.snd

/-- String-keyed association-list assignment. -/
def setS {β : Type} : List (String × β) → String → β → List (String × β)
  | [], k, v => [(k, v)]
  | (a, b) :: t, k, v => if a = k then (k, v) :: t else (a, b) :: setS t k v

/-- The game object created by GameManager.createGame (with the questions
field filled in by create_game). answers maps a question index to the
per-question object mapping a socket id to the submitted answer index. -/
structure Game where
  pin : String
  hostId : ConnId
  players : List Player
  questions : List Question
  currentQuestionIndex : Int
  state : GState
  answers : List (Int × List (ConnId × Int))
deriving Repr, DecidableEq

/-- Outbound socket emissions produced by the handlers. -/
inductive Emit where
  | gameCreated (pin : String)
  | gameStarted
  | newQuestionHost (q : Question)
  | newQuestionPlayer (text : String) (options : List String)
      (timeLimit : Nat) (index : Int) (total : Nat)
  | questionResults (correctAnswer : Int) (leaderboard : List Player)
  | gameOver (leaderboard : List Player)
  | playerJoined (players : List Player)
  | joinedSuccess (pin : String) (nickname : String)
  | errorMsg (msg : String)
  | playerAnswered (playerId : ConnId) (count : Nat)
  | hostDisconnected
  | playerLeft (players : List Player)
deriving Repr, DecidableEq

/-- Result of a per-game handler: the game after the handler, the
emissions it produced, and ok = false exactly when the handler performed
an out-of-bounds question access (a thrown TypeError in JS). -/
structure HResult where
  game : Game
  emits : List Emit
  ok : Bool
deriving Repr, DecidableEq

/-- questions[i] for an Int index: defined exactly when 0 ≤ i < length,
as a JS array read that is otherwise undefined. -/
def getQ (qs : List Question) (i : Int) : Option Question :=
  if i < 0 then none else qs[i.toNat]?

/-- question.timeLimit or-else 20: the JS expression question.timeLimit
fills in 20 when the field is absent, and also when it equals 0, since 0
is falsy. -/
def effTimeLimit (t : Option Nat) : Nat :=
  match t with
  | some v => if v = 0 then 20 else v
  | none => 20

/-- The comparator (a, b) => b.score - a.score: a is kept before b when
the comparator is nonpositive, that is when b.score ≤ a.score. -/
def scoreGe (a b : Player) : Prop := b.score ≤ a.score

instance : DecidableRel scoreGe := fun a b => inferInstanceAs (Decidable (b.score ≤ a.score))

instance : IsTotal Player scoreGe := ⟨fun a b => le_total b.score a.score⟩

instance : IsTrans Player scoreGe := ⟨fun _ _ _ h1 h2 => le_trans h2 h1⟩

/-- The JS sort of the players array under the comparator
(a, b) => b.score - a.score: the language requires Array.prototype.sort
to be stable, and a stable sort under a total preorder has a unique
result, so the sorted array is modelled by a stable sort (insertion
sort) under the relation b.score ≤ a.score: descending by score, ties in
original order. -/
def sortPlayers (ps : List Player) : List Player :=
  ps.insertionSort scoreGe

/-- getLeaderboard(game): sorts game.players IN PLACE by descending score
and returns the first five of the sorted array; the first component is
the game after the call (its players field has been reordered by the
sort), the second the returned projection. -/
def getLeaderboard (game : Game) : Game × List Player :=
  let sorted := sortPlayers game.players
  ({ game with players := sorted }, sorted.take 5)

/-- sendQuestion: reads questions[currentQuestionIndex]; when defined,
emits the full question to the host and the redacted view to the players;
when undefined the field accesses throw, modelled by none. -/
def sendQuestion (game : Game) : Option (List Emit) :=
  (getQ game.questions game.currentQuestionIndex).map (fun q =>
    [Emit.newQuestionHost q,
     Emit.newQuestionPlayer q.text q.options (effTimeLimit q.timeLimit)
       game.currentQuestionIndex game.questions.length])

/-- The start_game handler body after the registry lookup: if the caller
is the host, set state QUESTION and currentQuestionIndex 0 (no phase
check), emit game_started, then sendQuestion. -/
def startGame (game : Game) (caller : ConnId) : HResult :=
  if game.hostId = caller then
    let g := { game with state := GState.QUESTION, currentQuestionIndex := 0 }
    match sendQuestion g with
    | some es => ⟨g, Emit.gameStarted :: es, true⟩
    | none => ⟨g, [Emit.gameStarted], false⟩
  else ⟨game, [], true⟩

/-- The next_question handler body after the registry lookup: if the
caller is the host, increment currentQuestionIndex; within bounds,
re-enter QUESTION, reset that index in answers to the empty object and
dispatch; out of bounds, enter END and emit game_over with the
leaderboard (getLeaderboard also reorders players in place). -/
def nextQuestion (game : Game) (caller : ConnId) : HResult :=
  if game.hostId = caller then
    let g := { game with currentQuestionIndex := game.currentQuestionIndex + 1 }
    if g.currentQuestionIndex < (g.questions.length : Int) then
      let g2 := { g with state := GState.QUESTION,
                         answers := setA g.answers g.currentQuestionIndex [] }
      match sendQuestion g2 with
      | some es => ⟨g2, es, true⟩
      | none => ⟨g2, [], false⟩
    else
      let g2 := { g with state := GState.END }
      let r := getLeaderboard g2
      ⟨r.1, [Emit.gameOver r.2], true⟩
  else ⟨game, [], true⟩

/-- The show_results handler body after the registry lookup: if the
caller is the host, set state RESULT (no phase check, no index change),
then build the question_results payload; the access
questions[currentQuestionIndex].correctIndex throws when the index is out
of bounds (ok = false), and the assignment of RESULT has already happened
at that point; getLeaderboard in the payload reorders players in place. -/
def showResults (game : Game) (caller : ConnId) : HResult :=
  if game.hostId = caller then
    let g := { game with state := GState.RESULT }
    match getQ g.questions g.currentQuestionIndex with
    | some q =>
        let r := getLeaderboard g
        ⟨r.1, [Emit.questionResults q.correctIndex r.2], true⟩
    | none => ⟨g, [], false⟩
  else ⟨game, [], true⟩

/-- Update the first player whose id matches, as
game.players.find(p => p.id === socket.id) followed by a field mutation;
no change when no player matches. -/
def updateFirst : List Player → ConnId → (Player → Player) → List Player
  | [], _, _ => []
  | p :: t, cid, f => if p.id = cid then f p :: t else p :: updateFirst t cid f

/-- The mutation of the first matching player on a correct answer:
score increases by points = 500 + Math.floor(500 * (timeLeft / 20)) and
streak increments; the floor of the exact rational value
500 * timeLeft / 20 is Int.fdiv. -/
def applyCorrect (timeLeft : Int) (p : Player) : Player :=
  { p with score := p.score + (500 + Int.fdiv (500 * timeLeft) 20),
           streak := p.streak + 1 }

/-- The mutation of the first matching player on an incorrect answer:
streak is reset to 0, the score is untouched. -/
def resetStreak (p : Player) : Player :=
  { p with streak := 0 }

/-- The body of submit_answer after the duplicate check has passed:
record the answer under the current index, then on a correct answer add
500 + floor(500 * timeLeft / 20) to the score of the first matching
player and increment its streak, on an incorrect answer reset its streak;
finally notify the host with the number of keys of the per-question
answers object. -/
def submitCore (game : Game) (caller : ConnId) (answerIndex : Int)
    (isCorrect : Bool) (timeLeft : Int) : HResult :=
  let qmap := ((lookupA game.answers game.currentQuestionIndex).getD [])
  let qmap2 := setS qmap caller answerIndex
  let g2 := { game with answers := setA game.answers game.currentQuestionIndex qmap2 }
  let g3 :=
    if isCorrect then
      let ps := updateFirst g2.players caller (applyCorrect timeLeft)
      { g2 with players := ps }
    else
      let ps := updateFirst g2.players caller resetStreak
      { g2 with players := ps }
  ⟨g3, [Emit.playerAnswered caller qmap2.length], true⟩

/-- The submit_answer handler body after the registry lookup: no-op
unless state is QUESTION; read the current question (an out-of-bounds
read throws at currentQ.correctIndex, before any mutation); ensure the
per-question answers object exists; the duplicate check
  if (game.answers[idx][socket.id]) return;
is a TRUTHINESS test, so it returns only when a previous answer exists
and is nonzero; otherwise it falls through to submitCore. -/
def submitAnswer (game : Game) (caller : ConnId) (answerIndex : Int)
    (timeLeft : Int) : HResult :=
  if game.state = GState.QUESTION then
    match getQ game.questions game.currentQuestionIndex with
    | none => ⟨game, [], false⟩
    | some currentQ =>
      let isCorrect := currentQ.correctIndex = answerIndex
      let g1 :=
        match lookupA game.answers game.currentQuestionIndex with
        | some _ => game
        | none => { game with answers := setA game.answers game.currentQuestionIndex [] }
      let qmap := ((lookupA g1.answers g1.currentQuestionIndex).getD [])
      match lookupS qmap caller with
      | some prev =>
          if prev = 0 then submitCore g1 caller answerIndex isCorrect timeLeft
          else ⟨g1, [], true⟩
      | none => submitCore g1 caller answerIndex isCorrect timeLeft
  else ⟨game, [], true⟩

/-- The games Map of GameManager: pin to game, unique keys, insertion
order. -/
abbrev Games := List (String × Game)

/-- GameManager.getGame. -/
def getGame (games : Games) (pin : String) : Option Game :=
  lookupS games pin

/-- The join_game handler: on an existing game in LOBBY state, push a
fresh player (score 0, streak 0) onto its players array and broadcast
player_joined then joined_success; otherwise emit the error signal and
change nothing. -/
def joinGame (games : Games) (caller : ConnId) (pin : String)
    (nickname : String) : Games × List Emit :=
  match lookupS games pin with
  | some game =>
    if game.state = GState.LOBBY then
      let player : Player := ⟨caller, nickname, 0, 0⟩
      let game2 := { game with players := game.players ++ [player] }
      (setS games pin game2,
       [Emit.playerJoined game2.players, Emit.joinedSuccess pin nickname])
    else (games, [Emit.errorMsg "Game not found or already started"])
  | none => (games, [Emit.errorMsg "Game not found or already started"])

/-- Remove the first player with the given id, as players.splice at the
index found by findIndex. -/
def removeFirstPlayer : List Player → ConnId → List Player
  | [], _ => []
  | p :: t, cid => if p.id = cid then t else p :: removeFirstPlayer t cid

/-- GameManager.removePlayer: scan the games in insertion order; on the
first game where the connection is a participant, remove that player and
stop (participant-left result); else, on the first game whose host is the
connection, delete the game from the Map and stop (host-left result,
isHost true); none when no game matches. -/
def removePlayer (games : Games) (socketId : ConnId) :
    Games × Option (String × Game × Bool) :=
  match games with
  | [] => ([], none)
  | (pin, game) :: rest =>
    if (game.players.find? (fun p => p.id = socketId)).isSome then
      let game2 := { game with players := removeFirstPlayer game.players socketId }
      ((pin, game2) :: rest, some (pin, game2, false))
    else if game.hostId = socketId then
      (rest, some (pin, game, true))
    else
      let r := removePlayer rest socketId
      ((pin, game) :: r.1, r.2)

/-- The disconnect handler: resolve the connection through
GameManager.removePlayer and broadcast host_disconnected or
player_left accordingly. -/
def disconnect (games : Games) (socketId : ConnId) : Games × List Emit :=
  let r := removePlayer games socketId
  match r.2 with
  | some (_, game, isHost) =>
      if isHost then (r.1, [Emit.hostDisconnected])
      else (r.1, [Emit.playerLeft game.players])
  | none => (r.1, [])

/-- True when an emission list contains the explicit error signal. -/
def hasError (es : List Emit) : Bool :=
  es.any (fun e => match e with | Emit.errorMsg _ => true | _ => false)

/-! ### Helper lemmas about the embedding -/

theorem getQ_eq_some_of_lt (qs : List Question) (i : Int)
    (h0 : 0 ≤ i) (h1 : i < (qs.length : Int)) :
    ∃ q, getQ qs i = some q := by
  have hn : i.toNat < qs.length := by omega
  exact ⟨qs[i.toNat], by simp [getQ, show ¬ i < 0 by omega, List.getElem?_eq_getElem hn]⟩

theorem lookupA_setA_self {β : Type} (m : List (Int × β)) (k : Int) (v : β) :
    lookupA (setA m k v) k = some v := by
  induction m with
  | nil => simp [setA, lookupA]
  | cons e t ih =>
    by_cases h : e.1 = k
    · simp [setA, h, lookupA]
    · simpa [setA, h, lookupA, List.find?_cons] using ih

theorem lookupS_setS_self {β : Type} (m : List (String × β)) (k : String) (v : β) :
    lookupS (setS m k v) k = some v := by
  induction m with
  | nil => simp [setS, lookupS]
  | cons e t ih =>
    by_cases h : e.1 = k
    · simp [setS, h, lookupS]
    · simpa [setS, h, lookupS, List.find?_cons] using ih

theorem lookupS_none_of_not_mem {β : Type} (m : List (String × β)) (k : String)
    (h : k ∉ m.map Prod.fst) : lookupS m k = none := by
  induction m with
  | nil => simp [lookupS]
  | cons e t ih =>
    simp only [List.map_cons, List.mem_cons, not_or] at h
    simpa [lookupS, List.find?_cons, show ¬ e.1 = k from fun he => h.1 he.symm]
      using ih h.2

theorem find?_updateFirst (ps : List Player) (cid : ConnId) (f : Player → Player)
    (hf : ∀ p, (f p).id = p.id) :
    (updateFirst ps cid f).find? (fun p => p.id = cid)
      = (ps.find? (fun p => p.id = cid)).map f := by
  induction ps with
  | nil => simp [updateFirst]
  | cons p t ih =>
    by_cases h : p.id = cid
    · simp [updateFirst, h, List.find?_cons, hf p]
    · simpa [updateFirst, h, List.find?_cons] using ih

theorem updateFirst_forall2 {R : Player → Player → Prop} (f : Player → Player)
    (hrefl : ∀ p, R p p) (hf : ∀ p, R p (f p)) (ps : List Player) (cid : ConnId) :
    List.Forall₂ R ps (updateFirst ps cid f) := by
  induction ps with
  | nil => simp [updateFirst]
  | cons p t ih =>
    by_cases h : p.id = cid
    · exact (by simpa [updateFirst, h] using
        List.Forall₂.cons (hf p) (List.forall₂_same.mpr (fun x _ => hrefl x)))
    · exact (by simpa [updateFirst, h] using List.Forall₂.cons (hrefl p) ih)

theorem submitAnswer_players_cases (g : Game) (cid : ConnId) (ai t : Int) :
    (submitAnswer g cid ai t).game.players = g.players ∨
    (submitAnswer g cid ai t).game.players
      = updateFirst g.players cid (applyCorrect t) ∨
    (submitAnswer g cid ai t).game.players
      = updateFirst g.players cid resetStreak := by
  simp only [submitAnswer, submitCore]
  repeat' split
  all_goals first
    | exact Or.inl rfl
    | exact Or.inr (Or.inl rfl)
    | exact Or.inr (Or.inr rfl)

theorem submitAnswer_currentQuestionIndex (g : Game) (cid : ConnId) (ai t : Int) :
    (submitAnswer g cid ai t).game.currentQuestionIndex = g.currentQuestionIndex := by
  simp only [submitAnswer, submitCore]
  repeat' split
  all_goals rfl

/-! ### Claims -/

/-- C1: the claim states that a second submit_answer from a connection
that already has a recorded answer for the current question is ignored
entirely, including when the first recorded answer index is 0. The code
contradicts this (and its own comment, Prevent double answering): the
duplicate check is a truthiness test, so a recorded answer index 0 is
falsy and the second submission is processed. Concretely: the first
submission records answer 0 (incorrect, score stays 0); the second
submission of answer 1 (correct, timeLeft 20) is then processed,
overwriting the recorded answer with 1 and adding 1000 points, so the
score is mutated a second time for the same question. -/
theorem C1_code_eval :
    (let g : Game := ⟨"111111", "h", [⟨"p1", "Ana", 0, 0⟩],
        [⟨"Q0", ["a", "b"], 1, none⟩], 0, GState.QUESTION, [(0, [])]⟩
     let g1 := (submitAnswer g "p1" 0 20).game
     let g2 := (submitAnswer g1 "p1" 1 20).game
     lookupS ((lookupA g1.answers 0).getD []) "p1" = some 0 ∧
     g1.players = [⟨"p1", "Ana", 0, 0⟩] ∧
     lookupS ((lookupA g2.answers 0).getD []) "p1" = some 1 ∧
     g2.players = [⟨"p1", "Ana", 1000, 1⟩]) := by decide

/-- C2 counterexample: the claim states that show_results from the host
succeeds in every phase, in particular LOBBY with currentIndex -1, and
that the access questions[currentIndex].correctIndex is always defined.
On a LOBBY session with currentIndex -1 and a nonempty question list the
question read is undefined (getQ returns none), the handler performs an
out-of-bounds access (ok = false) and broadcasts nothing. -/
theorem C2_counterexample :
    (showResults ⟨"111111", "h", [], [⟨"Q0", ["a", "b"], 1, none⟩],
        -1, GState.LOBBY, []⟩ "h").ok = false ∧
    (showResults ⟨"111111", "h", [], [⟨"Q0", ["a", "b"], 1, none⟩],
        -1, GState.LOBBY, []⟩ "h").emits = [] ∧
    getQ [⟨"Q0", ["a", "b"], 1, none⟩] (-1) = none := by decide

/-- C2 amended: a show_results command from the host never advances
currentIndex and always sets phase RESULT, and whenever
0 ≤ currentIndex < questions.length it broadcasts the correct option
index of the question at currentIndex together with the leaderboard; for
currentIndex -1 (LOBBY) or questions.length (END) the question access is
undefined instead. -/
theorem C2_show_results_in_bounds (g : Game)
    (h0 : 0 ≤ g.currentQuestionIndex)
    (h1 : g.currentQuestionIndex < (g.questions.length : Int)) :
    (showResults g g.hostId).game.currentQuestionIndex = g.currentQuestionIndex ∧
    (showResults g g.hostId).game.state = GState.RESULT ∧
    (showResults g g.hostId).ok = true ∧
    ∃ q, getQ g.questions g.currentQuestionIndex = some q ∧
      (showResults g g.hostId).emits
        = [Emit.questionResults q.correctIndex ((sortPlayers g.players).take 5)] := by
  obtain ⟨q, hq⟩ := getQ_eq_some_of_lt g.questions g.currentQuestionIndex h0 h1
  refine ⟨?_, ?_, ?_, q, hq, ?_⟩ <;> simp [showResults, hq, getLeaderboard]

/-- C2 witness: instantiation of the amended show_results theorem on a
concrete session in QUESTION phase at index 0. -/
theorem C2_witness :
    (0 : Int) ≤ 0 ∧ (0 : Int) < 1 ∧
    ((showResults ⟨"111111", "h", [⟨"p1", "Ana", 875, 1⟩],
        [⟨"Q0", ["a", "b"], 1, none⟩], 0, GState.QUESTION, [(0, [("p1", 1)])]⟩
        "h").emits
      = [Emit.questionResults 1 [⟨"p1", "Ana", 875, 1⟩]]) := by
  refine ⟨by decide, by decide, ?_⟩
  obtain ⟨-, -, -, q, hq, he⟩ := C2_show_results_in_bounds
    ⟨"111111", "h", [⟨"p1", "Ana", 875, 1⟩],
      [⟨"Q0", ["a", "b"], 1, none⟩], 0, GState.QUESTION, [(0, [("p1", 1)])]⟩
    (by decide) (by decide)
  rw [he]
  have : q = ⟨"Q0", ["a", "b"], 1, none⟩ := by
    have := hq.symm.trans (show getQ [⟨"Q0", ["a", "b"], 1, none⟩] 0
      = some ⟨"Q0", ["a", "b"], 1, none⟩ by decide)
    exact Option.some.inj this
  subst this
  decide

/-- C3 counterexample: the claim states that getLeaderboard leaves the
session completely unchanged and that participants keep join order. On a
session whose two players are in join order with ascending scores, the
call reorders the players array (the sort is in place), so the session
after the call differs from the session before it. -/
theorem C3_counterexample :
    (getLeaderboard ⟨"111111", "h",
        [⟨"p1", "Ana", 0, 0⟩, ⟨"p2", "Bo", 100, 1⟩], [], -1, GState.LOBBY, []⟩).1
      ≠ ⟨"111111", "h",
        [⟨"p1", "Ana", 0, 0⟩, ⟨"p2", "Bo", 100, 1⟩], [], -1, GState.LOBBY, []⟩ := by
  decide

/-- C3 amended: getLeaderboard is not a pure projection: it sorts the
players array in place. After the call the session holds the same
players reordered into descending score (a permutation of the previous
sequence, sorted under scoreGe), every other field is unchanged, and the
returned projection is the first five entries of that reordered array;
join order of participants is in general not preserved. -/
theorem C3_getLeaderboard_sorts_in_place (g : Game) :
    ((getLeaderboard g).1.players.Perm g.players) ∧
    List.Sorted scoreGe (getLeaderboard g).1.players ∧
    (getLeaderboard g).1.pin = g.pin ∧
    (getLeaderboard g).1.hostId = g.hostId ∧
    (getLeaderboard g).1.questions = g.questions ∧
    (getLeaderboard g).1.currentQuestionIndex = g.currentQuestionIndex ∧
    (getLeaderboard g).1.state = g.state ∧
    (getLeaderboard g).1.answers = g.answers ∧
    (getLeaderboard g).2 = (getLeaderboard g).1.players.take 5 := by
  refine ⟨?_, ?_, rfl, rfl, rfl, rfl, rfl, rfl, rfl⟩
  · simpa [getLeaderboard, sortPlayers] using List.perm_insertionSort scoreGe g.players
  · simpa [getLeaderboard, sortPlayers] using List.sorted_insertionSort scoreGe g.players

/-- C4: a correct answer submitted in QUESTION phase by a connection
with no prior recorded answer for the current question adds exactly
500 + floor(500 * timeLeft / 20) points to the score of the first
matching player and increments its streak; timeLeft 20 gives 1000,
timeLeft 0 gives 500, timeLeft 10 gives 750, timeLeft 15 gives 875. -/
theorem C4_scoring_formula (g : Game) (cid : ConnId) (answerIndex timeLeft : Int)
    (q : Question) (p : Player)
    (hstate : g.state = GState.QUESTION)
    (hq : getQ g.questions g.currentQuestionIndex = some q)
    (hc : q.correctIndex = answerIndex)
    (hnoprev : lookupS ((lookupA g.answers g.currentQuestionIndex).getD []) cid = none)
    (hp : g.players.find? (fun r => r.id = cid) = some p) :
    (submitAnswer g cid answerIndex timeLeft).game.players.find? (fun r => r.id = cid)
      = some { p with score := p.score + (500 + Int.fdiv (500 * timeLeft) 20),
                      streak := p.streak + 1 } := by
  have hfind : (updateFirst g.players cid (applyCorrect timeLeft)).find?
        (fun r => r.id = cid)
      = some (applyCorrect timeLeft p) := by
    rw [find?_updateFirst g.players cid (applyCorrect timeLeft) (fun r => rfl), hp,
      Option.map_some']
  rcases hA : lookupA g.answers g.currentQuestionIndex with _ | m
  · rw [hA] at hnoprev
    simp only [submitAnswer, submitCore, hstate, hq, hA]
    simpa [hc, lookupA_setA_self, lookupS, applyCorrect] using hfind
  · rw [hA, Option.getD_some] at hnoprev
    simp only [lookupS] at hnoprev
    simp only [submitAnswer, submitCore, hstate, hq, hA]
    simpa [hc, lookupS, applyCorrect, hnoprev] using hfind

/-- C4 witness: on a concrete QUESTION session a correct answer with
timeLeft 15 takes the score of the submitting player from 0 to 875 and
its streak from 0 to 1. -/
theorem C4_witness :
    (submitAnswer ⟨"111111", "h", [⟨"p1", "Ana", 0, 0⟩],
        [⟨"Q0", ["a", "b"], 1, none⟩], 0, GState.QUESTION, [(0, [])]⟩
        "p1" 1 15).game.players.find? (fun r => r.id = "p1")
      = some ⟨"p1", "Ana", 875, 1⟩ := by
  have h := C4_scoring_formula
    ⟨"111111", "h", [⟨"p1", "Ana", 0, 0⟩],
      [⟨"Q0", ["a", "b"], 1, none⟩], 0, GState.QUESTION, [(0, [])]⟩
    "p1" 1 15 ⟨"Q0", ["a", "b"], 1, none⟩ ⟨"p1", "Ana", 0, 0⟩
    rfl (by decide) rfl (by decide) (by decide)
  exact h.trans (by decide)

/-- C5 counterexample: the claim states that a score is non-negative and
never decreases across every operation, including submit_answer with a
negative client-supplied timeLeft. A correct answer with timeLeft -100
adds 500 + floor(500 * (-100) / 20) = -2000 points: the score of the
submitting player drops from 0 to -2000, both decreasing and negative. -/
theorem C5_counterexample :
    ((submitAnswer ⟨"111111", "h", [⟨"p1", "Ana", 0, 0⟩],
        [⟨"Q0", ["a", "b"], 1, none⟩], 0, GState.QUESTION, [(0, [])]⟩
        "p1" 1 (-100)).game.players = [⟨"p1", "Ana", -2000, 1⟩]) ∧
    (-2000 : Int) < 0 := by decide

/-- C5 amended: provided the client-supplied timeLeft is non-negative,
submit_answer never decreases any player score and preserves
non-negativity of every score (pointwise along the players sequence);
with a negative timeLeft a correct answer can decrease the score below
zero, as the counterexample shows. -/
theorem C5_score_monotone_nonneg (g : Game) (cid : ConnId) (ai t : Int)
    (ht : 0 ≤ t) :
    List.Forall₂ (fun p p2 => p.score ≤ p2.score ∧ (0 ≤ p.score → 0 ≤ p2.score))
      g.players (submitAnswer g cid ai t).game.players := by
  have hpts : (0 : Int) ≤ 500 + Int.fdiv (500 * t) 20 := by
    have h2 := Int.fdiv_nonneg
      (mul_nonneg (by norm_num : (0 : Int) ≤ 500) ht) (by norm_num : (0 : Int) ≤ 20)
    omega
  rcases submitAnswer_players_cases g cid ai t with h | h | h <;> rw [h]
  · exact List.forall₂_same.mpr (fun x _ => ⟨le_refl _, id⟩)
  · exact updateFirst_forall2 _ (fun p => ⟨le_refl _, id⟩)
      (fun p => ⟨le_add_of_nonneg_right hpts, fun h0 => add_nonneg h0 hpts⟩)
      g.players cid
  · exact updateFirst_forall2 _ (fun p => ⟨le_refl _, id⟩)
      (fun p => ⟨le_refl _, id⟩) g.players cid

/-- C5 witness: instantiation of the amended theorem on a concrete
session with timeLeft 20. -/
theorem C5_witness :
    (0 : Int) ≤ 20 ∧
    List.Forall₂ (fun (p p2 : Player) => p.score ≤ p2.score ∧ (0 ≤ p.score → 0 ≤ p2.score))
      ([⟨"p1", "Ana", 0, 0⟩] : List Player)
      ((submitAnswer ⟨"111111", "h", [⟨"p1", "Ana", 0, 0⟩],
          [⟨"Q0", ["a", "b"], 1, none⟩], 0, GState.QUESTION, [(0, [])]⟩
          "p1" 1 20).game.players) :=
  ⟨by decide,
    C5_score_monotone_nonneg
      ⟨"111111", "h", [⟨"p1", "Ana", 0, 0⟩],
        [⟨"Q0", ["a", "b"], 1, none⟩], 0, GState.QUESTION, [(0, [])]⟩
      "p1" 1 20 (by decide)⟩

/-- C6 counterexample: the claim states that currentIndex never
decreases across every sequence of host commands, including a start_game
issued when the session is no longer in LOBBY. On a two-question session
the sequence start_game, next_question, start_game takes currentIndex
from -1 to 0 to 1 and then back to 0: the final start_game decreases
it. -/
theorem C6_counterexample :
    (let g0 : Game := ⟨"111111", "h", [],
        [⟨"Q0", ["a", "b"], 1, none⟩, ⟨"Q1", ["c", "d"], 0, none⟩],
        -1, GState.LOBBY, []⟩
     let g1 := (startGame g0 "h").game
     let g2 := (nextQuestion g1 "h").game
     let g3 := (startGame g2 "h").game
     g1.currentQuestionIndex = 0 ∧ g2.currentQuestionIndex = 1 ∧
     g3.currentQuestionIndex = 0 ∧
     g3.currentQuestionIndex < g2.currentQuestionIndex) := by decide

/-- C6 amended: currentIndex never decreases under next_question,
show_results and submit_answer (next_question leaves it or increments
it, the other two never change it), but start_game is not guarded by
phase: whenever the host issues it the index is reset to 0, which is a
decrease once the index has advanced past 0; monotonicity therefore
holds only for command sequences whose start_game occurrences happen at
index at most 0. -/
theorem C6_index_monotone_except_start (g : Game) (caller : ConnId) (ai t : Int) :
    g.currentQuestionIndex ≤ (nextQuestion g caller).game.currentQuestionIndex ∧
    (showResults g caller).game.currentQuestionIndex = g.currentQuestionIndex ∧
    (submitAnswer g caller ai t).game.currentQuestionIndex = g.currentQuestionIndex ∧
    ((startGame g caller).game.currentQuestionIndex = 0 ∨
     (startGame g caller).game.currentQuestionIndex = g.currentQuestionIndex) := by
  refine ⟨?_, ?_, submitAnswer_currentQuestionIndex g caller ai t, ?_⟩
  · simp only [nextQuestion, getLeaderboard]
    repeat' split
    all_goals simp
  · simp only [showResults, getLeaderboard]
    repeat' split
    all_goals rfl
  · simp only [startGame]
    repeat' split
    all_goals first
      | exact Or.inl rfl
      | exact Or.inr rfl

/-- C7 counterexample: the claim states that the host connection is
never an element of participants, even when the joining connection is
the session host itself in LOBBY. join_game has no guard excluding the
host: when the host of a fresh LOBBY session issues join_game for its
own pin, it is appended to players, so the session then holds a
participant whose connection id equals the host id. -/
theorem C7_counterexample :
    getGame (joinGame [("111111", ⟨"111111", "h", [], [], -1, GState.LOBBY, []⟩)]
        "h" "111111" "Ana").1 "111111"
      = some ⟨"111111", "h", [⟨"h", "Ana", 0, 0⟩], [], -1, GState.LOBBY, []⟩ ∧
    ([⟨"h", "Ana", 0, 0⟩] : List Player).any (fun p => p.id = "h") = true := by
  decide

/-- C7 amended: the invariant that the host id is not among the
participant ids is preserved by join_game only under the additional
assumption that the caller is not the host of the joined session:
join_game appends exactly the calling connection, so any non-host join
keeps the invariant; join_game itself has no guard stopping the host
from joining its own session, as the counterexample shows. -/
theorem C7_host_not_participant_preserved (games : Games)
    (caller pin nickname : String) (game : Game)
    (hg : getGame games pin = some game)
    (hcaller : caller ≠ game.hostId)
    (hinv : ∀ p ∈ game.players, p.id ≠ game.hostId) :
    ∃ game2, getGame (joinGame games caller pin nickname).1 pin = some game2 ∧
      game2.hostId = game.hostId ∧ ∀ p ∈ game2.players, p.id ≠ game2.hostId := by
  simp only [getGame] at hg
  by_cases hs : game.state = GState.LOBBY
  · refine ⟨{ game with players := game.players ++ [⟨caller, nickname, 0, 0⟩] }, ?_, rfl, ?_⟩
    · simp only [joinGame, hg, hs]
      simp [getGame, lookupS_setS_self]
    · intro p hp
      rcases List.mem_append.mp hp with h | h
      · exact hinv p h
      · rw [List.mem_singleton.mp h]
        exact hcaller
  · refine ⟨game, ?_, rfl, hinv⟩
    simp only [joinGame, hg, hs]
    simpa [getGame, hs] using hg

/-- C7 witness: instantiation of the amended theorem on a non-host
caller joining a fresh LOBBY session. -/
theorem C7_witness :
    ("p1" : String) ≠ "h" ∧
    (∃ game2,
      getGame (joinGame [("111111", ⟨"111111", "h", [], [], -1, GState.LOBBY, []⟩)]
          "p1" "111111" "Ana").1 "111111" = some game2 ∧
      game2.hostId = "h" ∧ ∀ p ∈ game2.players, p.id ≠ game2.hostId) :=
  ⟨by decide,
    C7_host_not_participant_preserved
      [("111111", ⟨"111111", "h", [], [], -1, GState.LOBBY, []⟩)]
      "p1" "111111" "Ana" ⟨"111111", "h", [], [], -1, GState.LOBBY, []⟩
      (by decide) (by decide) (by simp)⟩

/-- C8: when a connection is the host of a session and holds no other
role anywhere in the registry (it is a participant of no session and the
host of no other session, matching the stated one-role assumption), its
disconnect resolves through removePlayer to the deletion of exactly that
session: the result carries the host-left indicator and a subsequent
lookup of the code finds nothing. -/
theorem C8_host_disconnect_deletes_session (games : Games) (cid : ConnId)
    (pinX : String) (gX : Game)
    (hhost : gX.hostId = cid)
    (huniq : (games.map Prod.fst).Nodup)
    (hget : getGame games pinX = some gX)
    (hnopart : ∀ e ∈ games, ∀ p ∈ e.2.players, p.id ≠ cid)
    (hnohost : ∀ e ∈ games, e.1 ≠ pinX → e.2.hostId ≠ cid) :
    (removePlayer games cid).2 = some (pinX, gX, true) ∧
    getGame (removePlayer games cid).1 pinX = none := by
  induction games with
  | nil => simp [getGame, lookupS] at hget
  | cons e rest ih =>
    obtain ⟨p, g⟩ := e
    have hfnone : g.players.find? (fun q => q.id = cid) = none :=
      List.find?_eq_none.mpr
        (fun q hq => by simp [hnopart (p, g) (List.mem_cons_self _ _) q hq])
    have huniq2 : (rest.map Prod.fst).Nodup := (List.nodup_cons.mp huniq).2
    by_cases hp : p = pinX
    · subst hp
      have hgX : g = gX := by
        simpa [getGame, lookupS, List.find?_cons] using hget
      subst hgX
      have hnotin : p ∉ rest.map Prod.fst := (List.nodup_cons.mp huniq).1
      constructor
      · simp [removePlayer, hfnone, hhost]
      · simp [removePlayer, hfnone, hhost, getGame,
          lookupS_none_of_not_mem rest p hnotin]
    · have hget2 : getGame rest pinX = some gX := by
        simpa [getGame, lookupS, List.find?_cons, hp] using hget
      have hh : g.hostId ≠ cid := hnohost (p, g) (List.mem_cons_self _ _) hp
      have ih2 := ih huniq2 hget2
        (fun e2 he => hnopart e2 (List.mem_cons_of_mem _ he))
        (fun e2 he hne => hnohost e2 (List.mem_cons_of_mem _ he) hne)
      constructor
      · simpa [removePlayer, hfnone, hh] using ih2.1
      · simpa [removePlayer, hfnone, hh, getGame, lookupS, List.find?_cons, hp]
          using ih2.2

/-- C8 witness: instantiation on a registry of two sessions whose second
session is hosted by the disconnecting connection. -/
theorem C8_witness :
    ((removePlayer
        [("222222", ⟨"222222", "h2", [⟨"p9", "Zed", 0, 0⟩], [], -1, GState.LOBBY, []⟩),
         ("111111", ⟨"111111", "h", [⟨"p1", "Ana", 5, 0⟩], [], 0, GState.QUESTION, []⟩)]
        "h").2
      = some ("111111",
          ⟨"111111", "h", [⟨"p1", "Ana", 5, 0⟩], [], 0, GState.QUESTION, []⟩, true)) ∧
    getGame (removePlayer
        [("222222", ⟨"222222", "h2", [⟨"p9", "Zed", 0, 0⟩], [], -1, GState.LOBBY, []⟩),
         ("111111", ⟨"111111", "h", [⟨"p1", "Ana", 5, 0⟩], [], 0, GState.QUESTION, []⟩)]
        "h").1 "111111" = none :=
  C8_host_disconnect_deletes_session
    [("222222", ⟨"222222", "h2", [⟨"p9", "Zed", 0, 0⟩], [], -1, GState.LOBBY, []⟩),
     ("111111", ⟨"111111", "h", [⟨"p1", "Ana", 5, 0⟩], [], 0, GState.QUESTION, []⟩)]
    "h" "111111" ⟨"111111", "h", [⟨"p1", "Ana", 5, 0⟩], [], 0, GState.QUESTION, []⟩
    rfl (by decide) (by decide) (by decide) (by decide)

theorem sendQuestion_no_error (g : Game) (es : List Emit)
    (h : sendQuestion g = some es) : hasError es = false := by
  simp only [sendQuestion] at h
  rcases Option.map_eq_some'.mp h with ⟨q, hq, rfl⟩
  simp [hasError]

theorem startGame_no_error (g : Game) (cid : ConnId) :
    hasError (startGame g cid).emits = false := by
  simp only [startGame]
  split
  · split
    · rename_i es heq
      simpa [hasError] using sendQuestion_no_error _ es heq
    · simp [hasError]
  · simp [hasError]

theorem nextQuestion_no_error (g : Game) (cid : ConnId) :
    hasError (nextQuestion g cid).emits = false := by
  simp only [nextQuestion, getLeaderboard]
  repeat' split
  all_goals try simp [hasError]
  all_goals rename_i es heq
  all_goals simpa [hasError] using sendQuestion_no_error _ es heq

theorem showResults_no_error (g : Game) (cid : ConnId) :
    hasError (showResults g cid).emits = false := by
  simp only [showResults, getLeaderboard]
  repeat' split
  all_goals simp [hasError]

theorem submitAnswer_no_error (g : Game) (cid : ConnId) (ai t : Int) :
    hasError (submitAnswer g cid ai t).emits = false := by
  simp only [submitAnswer, submitCore]
  repeat' split
  all_goals simp [hasError]

theorem disconnect_no_error (games : Games) (cid : ConnId) :
    hasError (disconnect games cid).2 = false := by
  simp only [disconnect]
  repeat' split
  all_goals simp [hasError]

/-- C9: a join_game request whose pin names no session, or whose session
is not in LOBBY, leaves the registry exactly as it was and emits exactly
the explicit error signal to the caller; and no other handler ever emits
the explicit error signal (start_game, next_question, show_results,
submit_answer and disconnect never produce an error emission). -/
theorem C9_join_error_no_mutation (games : Games) (caller pin nickname : String)
    (g : Game) (cid : ConnId) (ai t : Int)
    (hbad : getGame games pin = none ∨
      ∃ game, getGame games pin = some game ∧ game.state ≠ GState.LOBBY) :
    joinGame games caller pin nickname
      = (games, [Emit.errorMsg "Game not found or already started"]) ∧
    hasError (startGame g cid).emits = false ∧
    hasError (nextQuestion g cid).emits = false ∧
    hasError (showResults g cid).emits = false ∧
    hasError (submitAnswer g cid ai t).emits = false ∧
    hasError (disconnect games cid).2 = false := by
  refine ⟨?_, startGame_no_error g cid, nextQuestion_no_error g cid,
    showResults_no_error g cid, submitAnswer_no_error g cid ai t,
    disconnect_no_error games cid⟩
  rcases hbad with h | ⟨game, h, hs⟩
  · simp only [getGame] at h
    simp [joinGame, h]
  · simp only [getGame] at h
    simp [joinGame, h, hs]

/-- C9 witness: instantiation on a registry holding one LOBBY session,
with a join_game request for a pin that names no session. -/
theorem C9_witness :
    (getGame [("111111", ⟨"111111", "h", [], [], -1, GState.LOBBY, []⟩)] "222222" = none ∨
      ∃ game, getGame [("111111", ⟨"111111", "h", [], [], -1, GState.LOBBY, []⟩)] "222222"
          = some game ∧ game.state ≠ GState.LOBBY) ∧
    (joinGame [("111111", ⟨"111111", "h", [], [], -1, GState.LOBBY, []⟩)]
        "p1" "222222" "Ana"
      = ([("111111", ⟨"111111", "h", [], [], -1, GState.LOBBY, []⟩)],
         [Emit.errorMsg "Game not found or already started"]) ∧
    hasError (startGame ⟨"111111", "h", [], [], -1, GState.LOBBY, []⟩ "p1").emits = false ∧
    hasError (nextQuestion ⟨"111111", "h", [], [], -1, GState.LOBBY, []⟩ "p1").emits = false ∧
    hasError (showResults ⟨"111111", "h", [], [], -1, GState.LOBBY, []⟩ "p1").emits = false ∧
    hasError (submitAnswer ⟨"111111", "h", [], [], -1, GState.LOBBY, []⟩ "p1" 0 0).emits
      = false ∧
    hasError (disconnect [("111111", ⟨"111111", "h", [], [], -1, GState.LOBBY, []⟩)]
        "p1").2 = false) :=
  ⟨Or.inl (by decide),
    C9_join_error_no_mutation
      [("111111", ⟨"111111", "h", [], [], -1, GState.LOBBY, []⟩)]
      "p1" "222222" "Ana" ⟨"111111", "h", [], [], -1, GState.LOBBY, []⟩ "p1" 0 0
      (Or.inl (by decide))⟩

/-- C10: starting a game whose question list is empty still sets phase
QUESTION and currentIndex 0, emits game_started, and then dispatches
question 0 through an unguarded out-of-bounds read (ok = false): the
field accesses on the nonexistent question are undefined and this branch
is reachable rather than guarded. -/
theorem C10_start_empty_questions_oob (g : Game) (caller : ConnId)
    (hhost : g.hostId = caller) (hq : g.questions = []) :
    (startGame g caller).game.state = GState.QUESTION ∧
    (startGame g caller).game.currentQuestionIndex = 0 ∧
    (startGame g caller).emits = [Emit.gameStarted] ∧
    (startGame g caller).ok = false := by
  simp [startGame, hhost, sendQuestion, hq, getQ]

/-- C10 witness: instantiation on a concrete LOBBY session with no
questions. -/
theorem C10_witness :
    ("h" : ConnId) = "h" ∧ ([] : List Question) = [] ∧
    ((startGame ⟨"111111", "h", [], [], -1, GState.LOBBY, []⟩ "h").game.state
        = GState.QUESTION ∧
     (startGame ⟨"111111", "h", [], [], -1, GState.LOBBY, []⟩ "h").game.currentQuestionIndex
        = 0 ∧
     (startGame ⟨"111111", "h", [], [], -1, GState.LOBBY, []⟩ "h").emits
        = [Emit.gameStarted] ∧
     (startGame ⟨"111111", "h", [], [], -1, GState.LOBBY, []⟩ "h").ok = false) :=
  ⟨rfl, rfl,
    C10_start_empty_questions_oob ⟨"111111", "h", [], [], -1, GState.LOBBY, []⟩ "h" rfl rfl⟩

end Kahoot
